import Mathlib

/-!
Shallow embedding of min-image/runtimes/python/server_combined.py.

Effectful code is embedded as pure Lean functions from oracle inputs
(what each call such as os.fork, ns.fdlisten, importlib.import_module or
json.loads returned) to traces of emitted events plus outcomes; control
flow is translated line by line from the source.  All pids and
descriptors are Nat, since os.fork in CPython either returns a
nonnegative pid or raises.
-/

-- ======== Global paths (source lines 22-33) ========

def HOST_DIR : String := "/host"

/-- FS_PATH = os.path.join(HOST_DIR, "fs.sock") (line 29). -/
def FS_PATH : String := "/host/fs.sock"

/-- SOCK_PATH = os.path.join(HOST_DIR, "ol.sock") (line 30). -/
def SOCK_PATH : String := "/host/ol.sock"

-- ======== Cache loop (source lines 130-175) ========

/-- Helper for pySplit: walk the characters, acc holds the reversed
pending token. -/
def pySplitAux : List Char → List Char → List String
  | [], acc => if acc.isEmpty then [] else [String.mk acc.reverse]
  | c :: cs, acc =>
    if c.isWhitespace then
      (if acc.isEmpty then [] else [String.mk acc.reverse]) ++ pySplitAux cs []
    else pySplitAux cs (c :: acc)

/-- Python str.split() with no separator: split on runs of whitespace and
drop empty chunks. -/
def pySplit (s : String) : List String := pySplitAux s.data []

/-- Lines 146-150: data = ns.fdlisten(FS_PATH).split(); mods = data[:-1];
signal = data[-1].  Slicing data[:-1] never fails (it is [] on an empty
list), but data[-1] raises IndexError when data is empty; the source has
no guard. -/
def parse_cache_line (line : String) : Except String (List String × String) :=
  let data := pySplit line
  match data.getLast? with
  | none => Except.error "IndexError: list index out of range"
  | some sig => Except.ok (data.dropLast, sig)

/-- What an execution of cache_loop in one process can end as:
it escapes the loop and serves (lines 173-175), it crashes on the
unguarded data[-1], or it is still inside the loop when the supplied
events run out (it would block in ns.fdlisten). -/
inductive CacheOutcome where
  | serving
  | crashed
  | blocked
  deriving DecidableEq, Repr

/-- Lines 130-175: the cache loop, as seen by a single process.  Each
event supplies the line that ns.fdlisten(FS_PATH) returned and the value
ns.forkenter() returned to this process on that iteration.  State: the
loop variable r (initialized to -1 at line 134) and signal (initialized
to "cache" at line 133).  Faithful to the source: line 151 stores the
forkenter return in the local ret_val, and r is never reassigned
anywhere in the loop, so the new state carries r unchanged; the
ret_val == 0 branch (lines 154-166) only redirects, imports and prints,
and the r == 0 reset branch (lines 139-142) reads the never-reassigned
r. -/
def cache_loop_run : Int → String → List (String × Int) → CacheOutcome
  | r, signal, [] =>
    if r ≠ 0 ∨ signal = "cache" then CacheOutcome.blocked else CacheOutcome.serving
  | r, signal, (line, _forkRet) :: rest =>
    if r ≠ 0 ∨ signal = "cache" then
      match (pySplit line).getLast? with
      | none => CacheOutcome.crashed
      | some sig =>
        -- mods := (pySplit line).dropLast; ret_val := _forkRet (line 151);
        -- r is NOT updated (the source never assigns r inside the loop)
        cache_loop_run r sig rest
    else CacheOutcome.serving

/-- Lines 158-163: the per-module import loop inside the ret_val == 0
branch.  loadMod models importlib.import_module: ok means the module
was loaded and bound into globals(), error err means it raised.
Returns the printed lines and the names successfully bound, in order. -/
def modImports (loadMod : String → Except String Unit) : List String → List String × List String
  | [] => ([], [])
  | m :: rest =>
    let tail := modImports loadMod rest
    match loadMod m with
    | Except.ok _ => (("importing: " ++ m) :: tail.1, m :: tail.2)
    | Except.error err =>
      (("importing: " ++ m) :: ("failed to import " ++ m ++ ": " ++ err) :: tail.1, tail.2)

/-- Lines 154-166: the whole ret_val == 0 child branch after
redirect(): load every named module, then print the signal line. -/
def cache_child_branch (loadMod : String → Except String Unit)
    (mods : List String) (signal : String) : List String :=
  (modImports loadMod mods).1 ++ ["signal: " ++ signal]

/-- Does an import attempt succeed? -/
def exOk : Except String Unit → Bool
  | Except.ok _ => true
  | Except.error _ => false

/-- Example import oracle for the module list of the spec: good_a and
good_c are importable, everything else raises. -/
def demoLoad : String → Except String Unit := fun m =>
  if m = "good_a" ∨ m = "good_c" then Except.ok ()
  else Except.error ("No module named " ++ m)

-- ======== Fork server, parent side (source lines 196-241) ========

/-- One observable step of the embedded processes. -/
inductive Ev where
  | accept (clientFd : Nat)
  | recvFds (fds : List Nat)
  | forkEv (ret : Nat)
  | closeFd (fd : Nat)
  | waitpid (pid : Nat)
  | sendall (bytes : List Nat)
  | closeClient (fd : Nat)
  | unshareCall (ret : Int)
  | assertFail
  | bindUnixSocket (path : String)
  | exitProc (code : Nat)
  | execBootstrap
  | logLine (line : String)
  | enableSeccompCall (ret : Int)
  deriving DecidableEq, Repr

/-- struct.pack("I", n): four bytes, little endian (x86 native order). -/
def packU32 (n : Nat) : List Nat :=
  [n % 256, n / 256 % 256, n / 65536 % 256, n / 16777216 % 256]

/-- e1 occurs strictly before e2 in the trace tr. -/
def before (e1 e2 : Ev) (tr : List Ev) : Prop :=
  ∃ i j : Nat, i < j ∧ tr[i]? = some e1 ∧ tr[j]? = some e2

/-- Oracle inputs for one accepted connection of the fork server. -/
structure ConnInput where
  clientFd : Nat
  fds : List Nat
  deriving DecidableEq, Repr

/-- Lines 202-223: the fork server handling of one accepted connection,
seen from the parent process.  childPid is the value os.fork() returned
in the parent at line 207, i.e. the pid of the immediate child.  The
unpacking root_fd, mem_cgroup_fd = fds at line 205 raises ValueError
unless exactly two descriptors arrived; the source has no try around
it, so the second component reports the escaped exception. -/
def fork_server_conn_parent (c : ConnInput) (childPid : Nat) : List Ev × Option String :=
  let pre := [Ev.accept c.clientFd, Ev.recvFds c.fds]
  match c.fds with
  | [root_fd, mem_cgroup_fd] =>
    (pre ++
      [Ev.forkEv childPid,
       Ev.closeFd root_fd, Ev.closeFd mem_cgroup_fd,
       Ev.waitpid childPid,
       Ev.sendall (packU32 childPid),
       Ev.closeClient c.clientFd], none)
  | _ => (pre, some "ValueError: not enough values to unpack")

/-- One connection plus the pid os.fork handed back for it. -/
structure ConnSpawn where
  conn : ConnInput
  childPid : Nat
  deriving DecidableEq, Repr

/-- Lines 202-241: the while True accept loop of fork_server, run over a
finite supply of connections.  An exception escaping one iteration
aborts the loop (there is no per-connection handler); otherwise the
loop goes on to the next accept. -/
def fork_server_loop : List ConnSpawn → List Ev × Option String
  | [] => ([], none)
  | cs :: rest =>
    match fork_server_conn_parent cs.conn cs.childPid with
    | (evs, none) =>
      let tail := fork_server_loop rest
      (evs ++ tail.1, tail.2)
    | (evs, some msg) => (evs, some msg)

/-- Lines 278-282: traceback.format_exc() always begins with this header,
then the raised error. -/
def format_exc (msg : String) : String :=
  "Traceback (most recent call last):\n" ++ msg

/-- Composition: the grandchild execs a bootstrap script that calls
fork_server (lines 273-282 around lines 196-241).  If an exception
escapes the accept loop, the except at lines 280-282 logs the traceback
and the script text, and the loop is never resumed. -/
def exec_fork_server (conns : List ConnSpawn) (bootstrapCode : String) : List Ev :=
  match fork_server_loop conns with
  | (tr, none) => tr
  | (tr, some msg) =>
    tr ++ [Ev.logLine ("Exception: " ++ format_exc msg),
           Ev.logLine ("Problematic Python Code:\n" ++ bootstrapCode)]

-- ======== start_sock_container (source lines 244-282) ========

/-- Oracle inputs for one run of start_sock_container: what ol.unshare()
returned, what os.fork() at line 264 returned to this process
(the grandchild pid in the intermediate child, 0 in the grandchild),
the bootstrap script text, and whether exec(code) raised. -/
structure SockStartInput where
  unshareRet : Int
  fork2Pid : Nat
  bootstrapCode : String
  execErr : Option String
  deriving DecidableEq, Repr

/-- Lines 244-282: start_sock_container as the trace of one process.
The Bool is true when the function returns normally to its caller
(only the grandchild path does).  Order is the source order: assert on
unshare, bind SOCK_PATH, fork, then either os._exit(0) in the
intermediate parent or exec of the bootstrap in the grandchild, whose
failure is caught, logged twice and swallowed (lines 278-282). -/
def start_sock_container (inp : SockStartInput) : List Ev × Bool :=
  if inp.unshareRet = 0 then
    let pre := [Ev.unshareCall inp.unshareRet, Ev.bindUnixSocket SOCK_PATH,
                Ev.forkEv inp.fork2Pid]
    if inp.fork2Pid > 0 then
      (pre ++ [Ev.exitProc 0], false)
    else
      match inp.execErr with
      | none => (pre ++ [Ev.execBootstrap], true)
      | some e =>
        (pre ++ [Ev.execBootstrap,
                 Ev.logLine ("Exception: " ++ format_exc e),
                 Ev.logLine ("Problematic Python Code:\n" ++ inp.bootstrapCode)], true)
  else ([Ev.unshareCall inp.unshareRet, Ev.assertFail], false)

/-- Which frame called start_sock_container in the process that runs the
bootstrap: line 334 (main, sock mode) or line 240 (the child branch of
fork_server). -/
inductive Caller where
  | fromMain
  | fromForkServerChild
  deriving DecidableEq, Repr

/-- The exit code of the process once start_sock_container returns
normally to its caller: from the fork_server child branch the next
statement is os._exit(1) (line 241); from main there is no further
statement, main returns and the interpreter exits with code 0. -/
def exit_code_after_return : Caller → Nat
  | Caller.fromForkServerChild => 1
  | Caller.fromMain => 0

-- ======== Descriptor accounting (for the fork server parent) ========

/-- Effect of one event on the set of open descriptors of the process:
accept and recv_fds allocate descriptors, close calls release them. -/
def applyEv (s : Finset Nat) : Ev → Finset Nat
  | Ev.accept fd => insert fd s
  | Ev.recvFds fds => fds.foldl (fun t fd => insert fd t) s
  | Ev.closeFd fd => s.erase fd
  | Ev.closeClient fd => s.erase fd
  | _ => s

/-- Open-descriptor set after running a trace from the set s. -/
def fdSetAfter (s : Finset Nat) (tr : List Ev) : Finset Nat := tr.foldl applyEv s

-- ======== Tornado request handler (source lines 57-71) ========

/-- An HTTP response: tornado starts at status 200 with an empty body;
set_status overwrites the status and write appends to the body. -/
structure Response where
  status : Nat
  body : String
  deriving DecidableEq, Repr

/-- Lowercase hexadecimal digit, as CPython prints escape codes. -/
def hexDigit (n : Nat) : Char :=
  if n < 10 then Char.ofNat (48 + n) else Char.ofNat (87 + n)

/-- CPython bytes-repr escaping of one byte, given the chosen quote
byte: the quote and the backslash (92) are backslash-escaped, tab (9),
newline (10) and carriage return (13) become backslash t, n, r, any
other byte outside printable ASCII becomes a backslash-x escape with
two lowercase hex digits, and a printable byte stands for itself. -/
def pyByteEsc (quote : Nat) (b : Nat) : List Char :=
  if b = quote ∨ b = 92 then [Char.ofNat 92, Char.ofNat b]
  else if b = 9 then [Char.ofNat 92, 't']
  else if b = 10 then [Char.ofNat 92, 'n']
  else if b = 13 then [Char.ofNat 92, 'r']
  else if b < 32 ∨ 127 ≤ b then [Char.ofNat 92, 'x', hexDigit (b / 16), hexDigit (b % 16)]
  else [Char.ofNat b]

/-- repr of a bytes object, which is what the f-string at line 64
interpolates (str of bytes is its repr): the prefix letter b, a smart
quote choice (single quote 39 unless the bytes contain one and no
double quote 34), the escaped bytes, and the closing quote. -/
def pyBytesRepr (data : List Nat) : String :=
  let quote : Nat := if 39 ∈ data ∧ ¬ 34 ∈ data then 34 else 39
  String.mk ([Char.ofNat 98, Char.ofNat quote] ++
    (data.map (pyByteEsc quote)).flatten ++ [Char.ofNat quote])

/-- The characters of the raw bytes themselves, one character per byte,
used to state whether the literal body occurs inside a response. -/
def bytesAsString (data : List Nat) : String := String.mk (data.map Char.ofNat)

/-- Lines 57-71: SockFileHandler.handle_request, parametrized over the
oracles for json.loads (error means it raised), the handler function f
(error means it raised; a None event is replaced by the empty dict,
line 67), and json.dumps (error means it raised).  data is the raw
request body self.request.body, a bytes value, modelled as its list of
byte values; an empty body is falsy and skips parsing, and the 400
message interpolates the bytes value into an f-string, which renders
its repr (line 64). -/
def handle_request {J R : Type} (loads : List Nat → Except String J) (emptyDict : J)
    (f : J → Except String R) (dumps : R → Except String String)
    (data : List Nat) : Response :=
  let parsed : Except String (Option J) :=
    if data ≠ [] then (loads data).map some else Except.ok none
  match parsed with
  | Except.error _ =>
    { status := 400, body := "Bad request data: \"" ++ pyBytesRepr data ++ "\"" }
  | Except.ok event =>
    let result := match event with
      | some ev => f ev
      | none => f emptyDict
    match result with
    | Except.error e => { status := 500, body := format_exc e }
    | Except.ok r =>
      match dumps r with
      | Except.error e => { status := 500, body := format_exc e }
      | Except.ok s => { status := 200, body := s }

/-- Example oracle: json.loads succeeds exactly on the one-byte body
holding the digit 1 (byte 49). -/
def loads0 : List Nat → Except String Unit := fun d =>
  if d = [49] then Except.ok () else Except.error "Expecting value"

/-- Example handler that always raises. -/
def f0 : Unit → Except String Unit := fun _ => Except.error "boom"

/-- Example json.dumps oracle. -/
def dumps0 : Unit → Except String String := fun _ => Except.ok "null"

-- ======== Argument parsing and main (source lines 287-348) ========

/-- The argparse namespace of lines 296-302. -/
structure Args where
  env : String
  bootstrap : Option String
  cache : Bool
  cgroup_count : Int
  enable_seccomp : Bool
  deriving DecidableEq, Repr

/-- Lines 297-301: the declared defaults.  Note line 301: the
enable-seccomp flag is store_true with default True. -/
def defaultArgs : Args :=
  { env := "sock", bootstrap := none, cache := false,
    cgroup_count := 0, enable_seccomp := true }

/-- Lines 296-302: parser.parse_args, modelled for the long-option
spellings of the documented invocations ("--opt value" and bare flags).
A bad choice for --env, a non-integer --cgroup-count, a flag missing
its value, or an unrecognized argument makes argparse exit: modelled as
none.  --cache and --enable-seccomp are store_true actions: they can
only set their destination to true. -/
def parse_args : List String → Args → Option Args
  | [], a => some a
  | t :: rest, a =>
    if t = "--env" then
      match rest with
      | [] => none
      | v :: rest2 =>
        if v = "sock" ∨ v = "docker" then parse_args rest2 { a with env := v } else none
    else if t = "--bootstrap" then
      match rest with
      | [] => none
      | v :: rest2 => parse_args rest2 { a with bootstrap := some v }
    else if t = "--cache" then parse_args rest { a with cache := true }
    else if t = "--cgroup-count" then
      match rest with
      | [] => none
      | v :: rest2 =>
        match v.toInt? with
        | some n => parse_args rest2 { a with cgroup_count := n }
        | none => none
    else if t = "--enable-seccomp" then parse_args rest { a with enable_seccomp := true }
    else none

/-- Lines 311-315 of the sock branch of main: if args.enable_seccomp,
call ol.enable_seccomp() and assert the return is nonnegative.  The
Bool is false exactly when the assert at line 314 fails. -/
def main_sock_seccomp (args : Args) (seccompRet : Int) : List Ev × Bool :=
  if args.enable_seccomp then
    if seccompRet ≥ 0 then
      ([Ev.enableSeccompCall seccompRet, Ev.logLine "seccomp enabled"], true)
    else ([Ev.enableSeccompCall seccompRet, Ev.assertFail], false)
  else ([], true)

-- ======== Theorems ========

-- C1 helper: r is never reassigned in the loop, so a run that starts
-- with r ≠ 0 can never take the serving exit.
lemma cache_loop_run_ne_serving (events : List (String × Int)) :
    ∀ (r : Int) (signal : String), r ≠ 0 →
      cache_loop_run r signal events ≠ CacheOutcome.serving := by
  induction events with
  | nil =>
    intro r signal hr
    simp only [cache_loop_run]
    rw [if_pos (Or.inl hr)]
    simp
  | cons e rest ih =>
    intro r signal hr
    obtain ⟨line, forkRet⟩ := e
    simp only [cache_loop_run]
    rw [if_pos (Or.inl hr)]
    match (pySplit line).getLast? with
    | none => simp
    | some sig => exact ih r sig hr

/-- C1: the claim that the cache loop escapes to the serving branch
exactly on an iteration whose fork return is 0 and whose consumed
signal is not "cache" is refuted by the source: the loop condition at
line 138 tests r, which is initialized to -1 at line 134 and never
reassigned (line 151 stores the forkenter return in the local ret_val
instead), so no run of cache_loop over any event sequence ever reaches
the serving branch; in particular the designated escape iteration
(fork return 0, signal "go") still leaves the process looping.  The
unreachable SERVING HANDLERS line and the comment at line 137 (only
child meant to serve ever escapes the loop) show the spec is the
intent and the code a slip. -/
theorem c1_cache_loop_never_serves :
    (∀ events : List (String × Int),
        cache_loop_run (-1) "cache" events ≠ CacheOutcome.serving) ∧
      cache_loop_run (-1) "cache" [("mod1 go", 0)] = CacheOutcome.blocked := by
  constructor
  · intro events
    exact cache_loop_run_ne_serving events (-1) "cache" (by decide)
  · decide

/-- C9: parsing a control line in the cache loop requires at least one
whitespace-delimited token.  When tokens exist, the last one becomes
the signal and the rest the module names; for an empty or
whitespace-only line, data[-1] raises IndexError (no guard exists in
the source), and a cache_loop run that receives such a line crashes. -/
theorem c9_cache_line_parse :
    (∀ line sig, (pySplit line).getLast? = some sig →
      parse_cache_line line = Except.ok ((pySplit line).dropLast, sig)) ∧
    (∀ line, pySplit line = [] →
      parse_cache_line line = Except.error "IndexError: list index out of range") ∧
    parse_cache_line "" = Except.error "IndexError: list index out of range" ∧
    parse_cache_line " \t " = Except.error "IndexError: list index out of range" ∧
    cache_loop_run (-1) "cache" [("", 0)] = CacheOutcome.crashed := by
  refine ⟨?_, ?_, ?_, ?_, ?_⟩
  · intro line sig h
    simp [parse_cache_line, h]
  · intro line h
    simp [parse_cache_line, h]
  · rfl
  · rfl
  · rfl

/-- C9 witness: a three-token line parses into two module names and the
trailing signal. -/
theorem c9_cache_line_parse_witness :
    parse_cache_line "mod1 mod2 cache" =
      Except.ok ((pySplit "mod1 mod2 cache").dropLast, "cache") :=
  c9_cache_line_parse.1 "mod1 mod2 cache" "cache" rfl

-- C7 helpers

lemma modImports_filter (loadMod : String → Except String Unit) (mods : List String) :
    (modImports loadMod mods).2 = mods.filter (fun m => exOk (loadMod m)) := by
  induction mods with
  | nil => rfl
  | cons m rest ih =>
    simp only [modImports]
    cases h : loadMod m with
    | ok u => simp [List.filter_cons, exOk, h, ih]
    | error e => simp [List.filter_cons, exOk, h, ih]

lemma modImports_attempted (loadMod : String → Except String Unit) (mods : List String) :
    ∀ m ∈ mods, ("importing: " ++ m) ∈ (modImports loadMod mods).1 := by
  induction mods with
  | nil => simp
  | cons m0 rest ih =>
    intro m hm
    rcases List.mem_cons.mp hm with rfl | hm2
    · simp only [modImports]
      cases h : loadMod m with
      | ok u => exact List.mem_cons_self _ _
      | error e => exact List.mem_cons_self _ _
    · simp only [modImports]
      cases h : loadMod m0 with
      | ok u => exact List.mem_cons_of_mem _ (ih m hm2)
      | error e => exact List.mem_cons_of_mem _ (List.mem_cons_of_mem _ (ih m hm2))

/-- C7: the import step attempts every named module in order, catching
per-module failures (the set of names bound is exactly the importable
ones, every module is attempted) and control still reaches the signal
branch (the last printed line is the signal line).  On the list
good_a, missing_b, good_c with only missing_b failing, good_a and
good_c are bound, a failure line is printed for missing_b, and the
signal branch is reached. -/
theorem c7_import_partial_failure :
    (∀ (loadMod : String → Except String Unit) (mods : List String) (signal : String),
      (modImports loadMod mods).2 = mods.filter (fun m => exOk (loadMod m)) ∧
      (∀ m ∈ mods, ("importing: " ++ m) ∈ cache_child_branch loadMod mods signal) ∧
      (cache_child_branch loadMod mods signal).getLast? = some ("signal: " ++ signal)) ∧
    (modImports demoLoad ["good_a", "missing_b", "good_c"]).2 = ["good_a", "good_c"] ∧
    ("failed to import missing_b: No module named missing_b") ∈
      (modImports demoLoad ["good_a", "missing_b", "good_c"]).1 ∧
    (cache_child_branch demoLoad ["good_a", "missing_b", "good_c"] "go").getLast? =
      some "signal: go" := by
  refine ⟨fun loadMod mods signal => ⟨modImports_filter loadMod mods, ?_, ?_⟩, ?_, ?_, ?_⟩
  · intro m hm
    exact List.mem_append_left _ (modImports_attempted loadMod mods m hm)
  · unfold cache_child_branch
    rw [List.getLast?_append_cons]
    rfl
  · decide
  · decide
  · decide

/-- C7 witness: even the failing module is attempted, and it is logged. -/
theorem c7_import_partial_failure_witness :
    ("importing: missing_b") ∈
      cache_child_branch demoLoad ["good_a", "missing_b", "good_c"] "go" :=
  (c7_import_partial_failure.1 demoLoad ["good_a", "missing_b", "good_c"] "go").2.1
    "missing_b" (by decide)

-- C2 helper: with exactly two received descriptors, the parent trace is
-- this explicit list.
lemma fork_server_conn_parent_ok (cf r0 c0 p : Nat) :
    fork_server_conn_parent ⟨cf, [r0, c0]⟩ p =
      ([Ev.accept cf, Ev.recvFds [r0, c0], Ev.forkEv p,
        Ev.closeFd r0, Ev.closeFd c0,
        Ev.waitpid p, Ev.sendall (packU32 p), Ev.closeClient cf], none) := rfl

/-- C2 counterexample: in a handled request where os.fork returned 100
to the parent (so the immediate child has pid 100) and the grandchild
later forked inside the child has pid 200, the reply the parent sends
is pack(100) and never pack(200): the source packs pid from line 207,
which is the immediate child, so the claim that the grandchild pid is
sent is false.  The grandchild pid is not even an input of the parent
branch. -/
theorem c2_reply_is_child_pid_counterexample :
    Ev.sendall (packU32 100) ∈ (fork_server_conn_parent ⟨7, [10, 11]⟩ 100).1 ∧
      Ev.sendall (packU32 200) ∉ (fork_server_conn_parent ⟨7, [10, 11]⟩ 100).1 := by
  decide

/-- C2 amended: for every successfully handled sandbox-creation request,
the 4-byte unsigned integer sent back is the pid of the immediate
intermediate child, i.e. the value os.fork returned to the parent at
line 207; it is the only reply sent on the connection, and the
grandchild pid is never communicated to the Fork-Server parent. -/
theorem c2_reply_pid_amended (c : ConnInput) (childPid r0 c0 : Nat)
    (h : c.fds = [r0, c0]) :
    Ev.sendall (packU32 childPid) ∈ (fork_server_conn_parent c childPid).1 ∧
      ∀ bs, Ev.sendall bs ∈ (fork_server_conn_parent c childPid).1 →
        bs = packU32 childPid := by
  obtain ⟨cf, fds⟩ := c
  simp only at h
  subst h
  rw [fork_server_conn_parent_ok]
  constructor
  · simp
  · intro bs hbs
    simp only [List.mem_cons, List.not_mem_nil, or_false] at hbs
    rcases hbs with h | h | h | h | h | h | h | h <;> simp_all

/-- C2 witness. -/
theorem c2_reply_pid_witness :
    Ev.sendall (packU32 100) ∈ (fork_server_conn_parent ⟨7, [10, 11]⟩ 100).1 :=
  (c2_reply_pid_amended ⟨7, [10, 11]⟩ 100 10 11 rfl).1

-- C3 helper: any descriptor list that is not exactly two long makes the
-- unpacking at line 205 raise.
lemma fork_server_conn_parent_bad (c : ConnInput) (p : Nat)
    (h : c.fds.length ≠ 2) :
    fork_server_conn_parent c p =
      ([Ev.accept c.clientFd, Ev.recvFds c.fds],
        some "ValueError: not enough values to unpack") := by
  obtain ⟨cf, fds⟩ := c
  rcases fds with _ | ⟨a, _ | ⟨b, _ | ⟨d, t⟩⟩⟩
  · rfl
  · rfl
  · simp at h
  · rfl

/-- C3 counterexample: a connection delivering three descriptors is
followed by a well-formed connection, but the well-formed one is never
accepted and no reply is ever sent for it: the ValueError from the
unpacking at line 205 escapes the accept loop (there is no
per-connection handler), so the failure is not confined to the one
connection and the server does not continue serving. -/
theorem c3_bad_fd_count_counterexample :
    Ev.accept 8 ∉
      exec_fork_server [⟨⟨7, [10, 11, 12]⟩, 100⟩, ⟨⟨8, [20, 21]⟩, 101⟩] "fork_server()" ∧
      Ev.sendall (packU32 101) ∉
        exec_fork_server [⟨⟨7, [10, 11, 12]⟩, 100⟩, ⟨⟨8, [20, 21]⟩, 101⟩] "fork_server()" := by
  decide

/-- C3 amended: when an accepted connection delivers a number of
descriptors other than two, the unpacking raises an uncaught ValueError
that aborts the accept loop at that connection: no event of any later
connection occurs; the exception is caught, logged together with the
bootstrap script text, only by the except around exec at lines 278-282,
and the loop is never resumed.  The server does not continue accepting
subsequent connections. -/
theorem c3_bad_fd_count_amended (cs : ConnSpawn) (rest : List ConnSpawn)
    (code : String) (h : cs.conn.fds.length ≠ 2) :
    exec_fork_server (cs :: rest) code =
      [Ev.accept cs.conn.clientFd, Ev.recvFds cs.conn.fds,
       Ev.logLine ("Exception: " ++ format_exc "ValueError: not enough values to unpack"),
       Ev.logLine ("Problematic Python Code:\n" ++ code)] := by
  unfold exec_fork_server fork_server_loop
  rw [fork_server_conn_parent_bad cs.conn cs.childPid h]
  rfl

/-- C3 witness: a single one-descriptor connection already kills the
loop. -/
theorem c3_bad_fd_count_witness :
    exec_fork_server [⟨⟨9, [10]⟩, 50⟩] "fork_server()" =
      [Ev.accept 9, Ev.recvFds [10],
       Ev.logLine ("Exception: " ++ format_exc "ValueError: not enough values to unpack"),
       Ev.logLine ("Problematic Python Code:\n" ++ "fork_server()")] :=
  c3_bad_fd_count_amended ⟨⟨9, [10]⟩, 50⟩ [] "fork_server()" (by decide)

/-- C4: the readiness ordering holds by construction.  In the
intermediate child (unshare succeeded, fork returned the grandchild
pid), the bind of SOCK_PATH happens strictly before the fork of the
grandchild and strictly before the os._exit(0); and in the Fork-Server
parent handling a well-formed connection, the waitpid on the immediate
child happens strictly before the pid reply is sent.  Hence the parent
never sends the reply before the replacement listening socket exists. -/
theorem c4_socket_before_reply (inp : SockStartInput) (c : ConnInput)
    (childPid r0 c0 : Nat)
    (h1 : inp.unshareRet = 0) (h2 : 0 < inp.fork2Pid) (h3 : c.fds = [r0, c0]) :
    before (Ev.bindUnixSocket SOCK_PATH) (Ev.forkEv inp.fork2Pid)
        (start_sock_container inp).1 ∧
      before (Ev.bindUnixSocket SOCK_PATH) (Ev.exitProc 0)
        (start_sock_container inp).1 ∧
      before (Ev.waitpid childPid) (Ev.sendall (packU32 childPid))
        (fork_server_conn_parent c childPid).1 := by
  obtain ⟨ur, f2, bc, ee⟩ := inp
  obtain ⟨cf, fds⟩ := c
  simp only at h1 h2 h3
  subst h1
  subst h3
  have htr : (start_sock_container ⟨0, f2, bc, ee⟩).1 =
      [Ev.unshareCall 0, Ev.bindUnixSocket SOCK_PATH, Ev.forkEv f2, Ev.exitProc 0] := by
    unfold start_sock_container
    rw [if_pos rfl, if_pos h2]
    rfl
  rw [htr, fork_server_conn_parent_ok]
  refine ⟨⟨1, 2, ?_, rfl, rfl⟩, ⟨1, 3, ?_, rfl, rfl⟩, ⟨5, 6, ?_, rfl, rfl⟩⟩ <;> decide

/-- C4 witness. -/
theorem c4_socket_before_reply_witness :
    before (Ev.bindUnixSocket SOCK_PATH) (Ev.exitProc 0)
      (start_sock_container ⟨0, 5, "fork_server()", none⟩).1 :=
  (c4_socket_before_reply ⟨0, 5, "fork_server()", none⟩ ⟨7, [10, 11]⟩ 100 10 11
    rfl (by decide) rfl).2.1

/-- C5 counterexample: when the bootstrap script raises and
start_sock_container was entered from main (the top-level sock
process), the except at lines 278-282 logs the error, the function
returns normally, and the process then exits with code 0 - refuting
the claim that the process exits with a non-zero exit code. -/
theorem c5_bootstrap_exit_code_counterexample :
    (start_sock_container ⟨0, 0, "do_boom()", some "RuntimeError: boom"⟩).2 = true ∧
      Ev.logLine ("Exception: " ++ format_exc "RuntimeError: boom") ∈
        (start_sock_container ⟨0, 0, "do_boom()", some "RuntimeError: boom"⟩).1 ∧
      exit_code_after_return Caller.fromMain = 0 := by
  decide

/-- C5 amended: an exception from exec of the bootstrap script is caught
at top level, both the traceback and the full script text are logged,
and the exec is attempted exactly once (never retried); the function
then returns normally, after which the process terminates with exit
code 1 when start_sock_container was entered from the Fork-Server
child branch (the os._exit(1) at line 241), but with exit code 0 when
it was entered from main. -/
theorem c5_bootstrap_failure_amended (inp : SockStartInput) (e : String)
    (h1 : inp.unshareRet = 0) (h2 : inp.fork2Pid = 0) (h3 : inp.execErr = some e) :
    (start_sock_container inp).1 =
      [Ev.unshareCall 0, Ev.bindUnixSocket SOCK_PATH, Ev.forkEv 0,
       Ev.execBootstrap,
       Ev.logLine ("Exception: " ++ format_exc e),
       Ev.logLine ("Problematic Python Code:\n" ++ inp.bootstrapCode)] ∧
      (start_sock_container inp).2 = true ∧
      exit_code_after_return Caller.fromForkServerChild = 1 ∧
      exit_code_after_return Caller.fromMain = 0 := by
  obtain ⟨ur, f2, bc, ee⟩ := inp
  simp only at h1 h2 h3
  subst h1
  subst h2
  subst h3
  refine ⟨rfl, rfl, rfl, rfl⟩

/-- C5 witness. -/
theorem c5_bootstrap_failure_witness :
    (start_sock_container ⟨0, 0, "do_boom()", some "E"⟩).2 = true :=
  (c5_bootstrap_failure_amended ⟨0, 0, "do_boom()", some "E"⟩ "E" rfl rfl rfl).2.1

-- C6 helpers

lemma fdSetAfter_append (s : Finset Nat) (l1 l2 : List Ev) :
    fdSetAfter s (l1 ++ l2) = fdSetAfter (fdSetAfter s l1) l2 :=
  List.foldl_append applyEv s l1 l2

lemma fdSetAfter_conn (s : Finset Nat) (cf r0 c0 p : Nat)
    (h1 : cf ∉ s) (h2 : r0 ∉ s) (h3 : c0 ∉ s) :
    fdSetAfter s (fork_server_conn_parent ⟨cf, [r0, c0]⟩ p).1 = s := by
  rw [fork_server_conn_parent_ok]
  ext x
  simp only [fdSetAfter, List.foldl, applyEv, Finset.mem_erase, Finset.mem_insert]
  constructor
  · rintro ⟨ha, hb, hc, (rfl | rfl | rfl | hx)⟩
    · exact absurd rfl hb
    · exact absurd rfl hc
    · exact absurd rfl ha
    · exact hx
  · intro hx
    exact ⟨fun he => h1 (he ▸ hx), fun he => h3 (he ▸ hx), fun he => h2 (he ▸ hx),
      Or.inr (Or.inr (Or.inr hx))⟩

lemma fork_server_loop_cons_ok (cf r0 c0 p : Nat) (rest : List ConnSpawn) :
    fork_server_loop (⟨⟨cf, [r0, c0]⟩, p⟩ :: rest) =
      ((fork_server_conn_parent ⟨cf, [r0, c0]⟩ p).1 ++ (fork_server_loop rest).1,
        (fork_server_loop rest).2) := rfl

/-- C6: handling a well-formed connection leaves the parent descriptor
set unchanged - the parent closes both received descriptors right
after the fork (lines 211-212) and the client socket after the reply
(line 223) - and therefore after any number of well-formed requests
whose fresh descriptors are not already open, the set of open
descriptors of the Fork-Server parent is exactly what it started
with. -/
theorem c6_fd_set_unchanged (s : Finset Nat) (conns : List ConnSpawn)
    (h : ∀ cs ∈ conns, cs.conn.fds.length = 2 ∧ cs.conn.clientFd ∉ s ∧
          ∀ fd ∈ cs.conn.fds, fd ∉ s) :
    fdSetAfter s (fork_server_loop conns).1 = s := by
  induction conns with
  | nil => rfl
  | cons cs rest ih =>
    obtain ⟨hlen, hcf, hfds⟩ := h cs (List.mem_cons_self _ _)
    obtain ⟨⟨cf, fds⟩, p⟩ := cs
    rcases fds with _ | ⟨a, _ | ⟨b, _ | ⟨d, t⟩⟩⟩
    · simp at hlen
    · simp at hlen
    · rw [fork_server_loop_cons_ok, fdSetAfter_append,
        fdSetAfter_conn s cf a b p hcf (hfds a (by simp)) (hfds b (by simp))]
      exact ih fun c2 hc2 => h c2 (List.mem_cons_of_mem _ hc2)
    · simp at hlen

/-- C6 witness: two well-formed requests over the starting set of open
descriptors 1 and 2. -/
theorem c6_fd_set_unchanged_witness :
    fdSetAfter {1, 2}
      (fork_server_loop [⟨⟨7, [10, 11]⟩, 100⟩, ⟨⟨8, [12, 13]⟩, 101⟩]).1 = {1, 2} :=
  c6_fd_set_unchanged {1, 2} [⟨⟨7, [10, 11]⟩, 100⟩, ⟨⟨8, [12, 13]⟩, 101⟩] (by decide)

-- C8 helper: a traceback is never the empty string.

lemma format_exc_ne_empty (msg : String) : format_exc msg ≠ "" := by
  unfold format_exc
  intro h
  have hd := congrArg String.data h
  rw [String.data_append] at hd
  exact absurd (List.append_eq_nil.mp hd).1 (by decide)

-- C8 helpers: a printable, quote-free, backslash-free byte is embedded
-- into the repr unchanged, so for such bodies the literal bytes occur
-- inside the 400 message; in general only the repr does.

lemma pyByteEsc_printable (b : Nat) (h1 : 32 ≤ b) (h2 : b < 127) (h3 : b ≠ 92)
    (h4 : b ≠ 39) : pyByteEsc 39 b = [Char.ofNat b] := by
  unfold pyByteEsc
  rw [if_neg (by omega), if_neg (by omega), if_neg (by omega), if_neg (by omega),
    if_neg (by omega)]

lemma flatten_esc_printable (data : List Nat)
    (h : ∀ b ∈ data, 32 ≤ b ∧ b < 127 ∧ b ≠ 92 ∧ b ≠ 39 ∧ b ≠ 34) :
    (data.map (pyByteEsc 39)).flatten = data.map Char.ofNat := by
  induction data with
  | nil => rfl
  | cons b rest ih =>
    obtain ⟨h1, h2, h3, h4, h5⟩ := h b (List.mem_cons_self _ _)
    simp only [List.map_cons, List.flatten_cons,
      pyByteEsc_printable b h1 h2 h3 h4,
      ih (fun x hx => h x (List.mem_cons_of_mem _ hx))]
    rfl

lemma pyBytesRepr_printable (data : List Nat)
    (h : ∀ b ∈ data, 32 ≤ b ∧ b < 127 ∧ b ≠ 92 ∧ b ≠ 39 ∧ b ≠ 34) :
    pyBytesRepr data =
      String.mk ([Char.ofNat 98, Char.ofNat 39] ++ data.map Char.ofNat ++ [Char.ofNat 39]) := by
  unfold pyBytesRepr
  have h39 : ¬ (39 ∈ data ∧ ¬ 34 ∈ data) := by
    rintro ⟨h1, -⟩
    exact absurd rfl (h 39 h1).2.2.2.1
  rw [if_neg h39]
  show String.mk ([Char.ofNat 98, Char.ofNat 39] ++
    (data.map (pyByteEsc 39)).flatten ++ [Char.ofNat 39]) = _
  rw [flatten_esc_printable data h]

lemma mid_isInfix (pre mid post : String) :
    List.IsInfix mid.data (pre ++ mid ++ post).data :=
  ⟨pre.data, post.data, by simp [String.data_append]⟩

/-- C8 counterexample: a body holding the bytes of no, newline, json is
non-empty and rejected by the parser, and the response has status 400,
but the f-string at line 64 interpolates the bytes repr, which escapes
the newline as a backslash-n pair, so the literal body does not occur
anywhere in the response: the claim that the 400 body always includes
the literal offending request body is false. -/
theorem c8_literal_body_counterexample :
    (handle_request loads0 () f0 dumps0 [110, 111, 10, 106, 115, 111, 110]).status = 400 ∧
      ¬ List.IsInfix (bytesAsString [110, 111, 10, 106, 115, 111, 110]).data
          (handle_request loads0 () f0 dumps0 [110, 111, 10, 106, 115, 111, 110]).body.data := by
  decide

/-- C8 amended: for every request whose body is non-empty and rejected
by json.loads, the response has status 400 and its body contains the
bytes repr of the offending body - so the literal body appears only up
to repr escaping; in particular, when every byte of the body is
printable ASCII and none is a backslash or a quote, the literal body
is contained verbatim.  For every request whose body parses but whose
handler invocation raises, the response has status 500 and a non-empty
traceback body. -/
theorem c8_request_errors_amended {J R : Type}
    (loads : List Nat → Except String J) (emptyDict : J)
    (f : J → Except String R) (dumps : R → Except String String) (data : List Nat) :
    (∀ e, data ≠ [] → loads data = Except.error e →
      (handle_request loads emptyDict f dumps data).status = 400 ∧
      List.IsInfix (pyBytesRepr data).data
        (handle_request loads emptyDict f dumps data).body.data ∧
      ((∀ b ∈ data, 32 ≤ b ∧ b < 127 ∧ b ≠ 92 ∧ b ≠ 39 ∧ b ≠ 34) →
        List.IsInfix (bytesAsString data).data
          (handle_request loads emptyDict f dumps data).body.data)) ∧
    (∀ j msg, data ≠ [] → loads data = Except.ok j → f j = Except.error msg →
      (handle_request loads emptyDict f dumps data).status = 500 ∧
      (handle_request loads emptyDict f dumps data).body ≠ "") := by
  constructor
  · intro e hne herr
    have hb : (handle_request loads emptyDict f dumps data).body =
        "Bad request data: \"" ++ pyBytesRepr data ++ "\"" := by
      simp only [handle_request, if_pos hne, herr, Except.map]
    refine ⟨?_, ?_, ?_⟩
    · simp only [handle_request, if_pos hne, herr, Except.map]
    · rw [hb]
      exact mid_isInfix _ _ _
    · intro hp
      rw [hb, pyBytesRepr_printable data hp]
      refine ⟨"Bad request data: \"".data ++ [Char.ofNat 98, Char.ofNat 39],
        [Char.ofNat 39] ++ "\"".data, ?_⟩
      simp [String.data_append, bytesAsString, List.append_assoc]
  · intro j msg hne hok herr
    simp only [handle_request, if_pos hne, hok, herr, Except.map]
    exact ⟨trivial, format_exc_ne_empty msg⟩

/-- C8 witness: the two-byte body no is rejected by the example loads
oracle with a 400 whose message carries its repr, and the one-byte
body 1 parses but the example handler raises, giving a 500. -/
theorem c8_request_errors_witness :
    (handle_request loads0 () f0 dumps0 [110, 111]).status = 400 ∧
      (handle_request loads0 () f0 dumps0 [49]).status = 500 :=
  ⟨((c8_request_errors_amended loads0 () f0 dumps0 [110, 111]).1 "Expecting value"
      (by decide) (by rfl)).1,
   ((c8_request_errors_amended loads0 () f0 dumps0 [49]).2 () "boom"
      (by decide) (by rfl) (by rfl)).1⟩

-- C10 helper: no action of the argument parser can set enable_seccomp
-- to false (line 301 declares it store_true with default True).

lemma parse_args_seccomp (argv : List String) (a b : Args)
    (ha : a.enable_seccomp = true) (h : parse_args argv a = some b) :
    b.enable_seccomp = true := by
  induction argv, a using parse_args.induct generalizing b <;>
    rw [parse_args.eq_def] at h <;> simp_all

/-- C10: for every command line that argparse accepts, the parsed
enable_seccomp is true - the flag is store_true with default already
True, so no invocation can disable it - and hence the sock branch of
main always calls ol.enable_seccomp() and asserts its return value
nonnegative: a negative return fails the assert at line 314, a
nonnegative one continues. -/
theorem c10_seccomp_always_enabled (argv : List String) (args : Args) (seccompRet : Int)
    (h : parse_args argv defaultArgs = some args) :
    args.enable_seccomp = true ∧
      Ev.enableSeccompCall seccompRet ∈ (main_sock_seccomp args seccompRet).1 ∧
      (seccompRet < 0 → (main_sock_seccomp args seccompRet).2 = false) ∧
      (0 ≤ seccompRet → (main_sock_seccomp args seccompRet).2 = true) := by
  have hs := parse_args_seccomp argv defaultArgs args rfl h
  refine ⟨hs, ?_, ?_, ?_⟩
  · unfold main_sock_seccomp
    rw [hs, if_pos rfl]
    split
    · exact List.mem_cons_self _ _
    · exact List.mem_cons_self _ _
  · intro hneg
    unfold main_sock_seccomp
    rw [hs, if_pos rfl, if_neg (by omega)]
  · intro hpos
    unfold main_sock_seccomp
    rw [hs, if_pos rfl, if_pos hpos]

/-- C10 witness: even with no command-line flags at all, seccomp is
enabled. -/
theorem c10_seccomp_always_enabled_witness :
    Ev.enableSeccompCall 0 ∈ (main_sock_seccomp defaultArgs 0).1 :=
  (c10_seccomp_always_enabled [] defaultArgs 0 rfl).2.1
